import Mathlib

/-!
Shallow embedding of the Pacman clone simulation core (pacman.py): maze and
rectangle collision model, fruit timer, player and ghost motion, and the
per-tick game-state updates (dots, power pellets, ghost collisions).
All machine integers of the source are modelled as Lean `Int`/`Nat` (Python
ints are unbounded, so no wrap-around is involved).
-/

/-! ## Constants (pacman.py lines 9-31) -/

def TILE_SIZE : Int := 20

def MOVE_SPEED : Int := 2

def POWER_PELLET_DURATION : Nat := 100

def GHOST_SCORE : Int := 200

def POWER_PELLET_SCORE : Int := 50

def DOT_SCORE : Int := 10

/-- Colors are RGB triples, as in pygame. -/
abbrev Color := Nat × Nat × Nat

def RED : Color := (255, 0, 0)

def BLUE : Color := (0, 0, 255)

def WHITE : Color := (255, 255, 255)

def ORANGE : Color := (255, 165, 0)

def PINK : Color := (255, 182, 193)

def CYAN : Color := (0, 255, 255)

/-! ## Rectangles (pygame.Rect with integer coordinates) -/

structure Rect where
  x : Int
  y : Int
  w : Int
  h : Int
  deriving DecidableEq, Repr

/-- pygame `Rect.move`. -/
def Rect.move (r : Rect) (dx dy : Int) : Rect :=
  { r with x := r.x + dx, y := r.y + dy }

/-- pygame `Rect.colliderect`: strict overlap, rectangles touching only at an
edge do not collide. -/
def Rect.collide (a b : Rect) : Bool :=
  decide (a.x < b.x + b.w) && decide (b.x < a.x + a.w) &&
  decide (a.y < b.y + b.h) && decide (b.y < a.y + a.h)

/-- pygame `Rect.center` (integer division, as pygame uses int coordinates). -/
def Rect.center (r : Rect) : Int × Int := (r.x + r.w / 2, r.y + r.h / 2)

/-! ## The maze (pacman.py lines 153-177, verbatim) -/

def MAZE : List String := [
  "11111111111111111111111111111",
  "1000000000001110000000000001",
  "1011110111101110111101111101",
  "1P00010000000000000001000P1",
  "1011010111111111111010110101",
  "1000010100000000000101000001",
  "1111110111101110111101111111",
  "0000000100000000000001000000",
  "1111110101111111110101111111",
  "1000000001000000010000000001",
  "1011111101011001010111111101",
  "1000000000010110100000000001",
  "1011111111010110101111111101",
  "1000000001000000010000000001",
  "1111110101111111110101111111",
  "0000000100000000000001000000",
  "1111110111101110111101111111",
  "1000010100000000000101000001",
  "1011010111111111111010110101",
  "1P00010000000000000001000P1",
  "1011110111101110111101111101",
  "1000000000001110000000000001",
  "11111111111111111111111111111"]

/-- The tile rectangle of the maze cell at column `col_index`, row `row_index`
(`pygame.Rect(col_index * TILE_SIZE, row_index * TILE_SIZE, TILE_SIZE, TILE_SIZE)`). -/
def wallRect (col_index row_index : Nat) : Rect :=
  ⟨(col_index : Int) * TILE_SIZE, (row_index : Int) * TILE_SIZE, TILE_SIZE, TILE_SIZE⟩

/-- `collides_with_walls` (identical in `Player` and `Ghost`): scan every cell,
and report a collision when a `'1'` cell's tile rectangle overlaps `rect`. -/
def collides_with_walls (rect : Rect) (maze : List String) : Bool :=
  maze.enum.any fun ri_row =>
    ri_row.2.toList.enum.any fun ci_cell =>
      ci_cell.2 == '1' && rect.collide (wallRect ci_cell.1 ri_row.1)

/-! ## Bonus fruit (pacman.py lines 33-66) -/

structure Fruit where
  rect : Rect
  eaten : Bool
  spawn_timer : Nat
  visible : Bool
  fruit_type : Nat
  deriving DecidableEq, Repr

/-- `Fruit.__init__(x, y)`. -/
def Fruit.init (x y : Int) : Fruit :=
  { rect := ⟨x + TILE_SIZE / 4, y + TILE_SIZE / 4, TILE_SIZE / 2, TILE_SIZE / 2⟩,
    eaten := false, spawn_timer := 0, visible := false, fruit_type := 0 }

/-- `Fruit.update`: advance the spawn timer (only while not eaten), set
visibility from the window `300 < t < 500`, and past `1000` reset the timer and
advance the fruit type mod 3. -/
def Fruit.update (f : Fruit) : Fruit :=
  if f.eaten = false then
    let t := f.spawn_timer + 1
    if 300 < t ∧ t < 500 then
      { f with spawn_timer := t, visible := true }
    else
      if t > 1000 then
        { f with spawn_timer := 0, visible := false, fruit_type := (f.fruit_type + 1) % 3 }
      else
        { f with spawn_timer := t, visible := false }
  else f

/-! ## Claims C7 (maze border) and C8 (fruit timer) -/

/-- C7 counterexample: the claim says every cell on the outer border of the
maze is a Wall cell, but row 7 starts and ends with a Path cell `'0'`
(and so does row 15), so the claim is false. -/
theorem maze_border_counterexample :
    (MAZE.getD 7 "").toList.headD '1' = '0' ∧
    (MAZE.getD 7 "").toList.getLastD '1' = '0' ∧
    ¬ (∀ row ∈ MAZE, row.toList.headD '1' = '1' ∧ row.toList.getLastD '1' = '1') := by
  refine ⟨by decide, by decide, by decide⟩

/-- C7 (amended): the first and last maze row consist only of Wall cells, and
every row except rows 7 and 15 begins and ends with a Wall cell; rows 7 and 15
(the tunnel rows) begin and end with a Path cell. -/
theorem maze_border_amended :
    ((MAZE.headD "").toList.all fun c => c == '1') = true ∧
    ((MAZE.getLastD "").toList.all fun c => c == '1') = true ∧
    (∀ i, i < MAZE.length → i ≠ 7 → i ≠ 15 →
      (MAZE.getD i "").toList.headD ' ' = '1' ∧ (MAZE.getD i "").toList.getLastD ' ' = '1') ∧
    (MAZE.getD 7 "").toList.headD ' ' = '0' ∧ (MAZE.getD 7 "").toList.getLastD ' ' = '0' ∧
    (MAZE.getD 15 "").toList.headD ' ' = '0' ∧ (MAZE.getD 15 "").toList.getLastD ' ' = '0' := by
  refine ⟨by decide, by decide, by decide, by decide, by decide, by decide, by decide⟩

/-- C7 witness: the amended border statement applied at row 0. -/
theorem maze_border_amended_witness :
    (MAZE.getD 0 "").toList.headD ' ' = '1' ∧ (MAZE.getD 0 "").toList.getLastD ' ' = '1' :=
  maze_border_amended.2.2.1 0 (by decide) (by decide) (by decide)

/-- An already-eaten fruit, as used by the C8 counterexample. -/
def eatenFruit : Fruit :=
  { rect := ⟨285, 325, 10, 10⟩, eaten := true, spawn_timer := 0, visible := false,
    fruit_type := 0 }

/-- C8 counterexample: the claim says the fruit timer advances by 1 on every
tick's fruit update, but `Fruit.update` is a no-op on an eaten fruit, so the
timer does not advance there. -/
theorem fruit_timer_eaten_counterexample :
    Fruit.update eatenFruit = eatenFruit ∧
    ¬ ((Fruit.update eatenFruit).spawn_timer = eatenFruit.spawn_timer + 1) := by
  refine ⟨by decide, by decide⟩

/-- C8 (amended): while the fruit is not eaten, each update advances the timer
by 1 (resetting it to 0 once it exceeds 1000, in which case the fruit type
advances cyclically mod 3), and the fruit is visible exactly when the advanced
timer lies strictly inside (300, 500); an eaten fruit is left unchanged. -/
theorem fruit_update_spec (f : Fruit) :
    (f.eaten = true → f.update = f) ∧
    (f.eaten = false →
      f.update.spawn_timer = (if f.spawn_timer + 1 > 1000 then 0 else f.spawn_timer + 1) ∧
      (f.update.visible = true ↔ (300 < f.spawn_timer + 1 ∧ f.spawn_timer + 1 < 500)) ∧
      f.update.fruit_type =
        (if f.spawn_timer + 1 > 1000 then (f.fruit_type + 1) % 3 else f.fruit_type) ∧
      f.update.eaten = false ∧ f.update.rect = f.rect) := by
  constructor
  · intro h
    unfold Fruit.update
    rw [h]
    simp
  · intro h
    unfold Fruit.update
    rw [h]
    simp only [if_pos rfl]
    split_ifs with h1 h2 h3 <;> (simp_all; try omega)

/-! ## Player (pacman.py lines 179-253) -/

structure Player where
  start_x : Int
  start_y : Int
  rect : Rect
  dx : Int
  dy : Int
  last_direction : Int × Int
  next_dx : Int
  next_dy : Int
  deriving DecidableEq, Repr

/-- `Player.__init__(x, y)`. -/
def Player.init (x y : Int) : Player :=
  { start_x := x, start_y := y, rect := ⟨x, y, TILE_SIZE, TILE_SIZE⟩,
    dx := MOVE_SPEED, dy := 0, last_direction := (1, 0),
    next_dx := MOVE_SPEED, next_dy := 0 }

/-- `Player.reset`. -/
def Player.reset (p : Player) : Player :=
  { p with rect := { p.rect with x := p.start_x, y := p.start_y },
           dx := MOVE_SPEED, dy := 0, last_direction := (1, 0),
           next_dx := MOVE_SPEED, next_dy := 0 }

/-- `Player.set_direction(dx, dy)`. -/
def Player.set_direction (p : Player) (dx dy : Int) : Player :=
  { p with next_dx := dx, next_dy := dy }

/-- First half of `Player.move`: commit the queued direction when the rect
moved by it does not overlap a wall, updating `last_direction` to the
sign-normalized new velocity. -/
def playerCommit (p : Player) (maze : List String) : Player :=
  if p.next_dx ≠ p.dx ∨ p.next_dy ≠ p.dy then
    if collides_with_walls (p.rect.move p.next_dx p.next_dy) maze then p
    else
      { p with dx := p.next_dx, dy := p.next_dy,
               last_direction :=
                 if p.next_dx ≠ 0 ∨ p.next_dy ≠ 0 then
                   ((if p.next_dx > 0 then 1 else if p.next_dx < 0 then -1 else (0 : Int)),
                    (if p.next_dy > 0 then 1 else if p.next_dy < 0 then -1 else (0 : Int)))
                 else p.last_direction }
  else p

/-- Second half of `Player.move`: move by the current velocity; if the moved
rect overlaps a wall, keep the rect and zero the velocity. -/
def playerPhys (p : Player) (maze : List String) : Player :=
  if collides_with_walls (p.rect.move p.dx p.dy) maze then
    { p with dx := 0, dy := 0 }
  else
    { p with rect := p.rect.move p.dx p.dy }

/-- `Player.move(maze)` is the commit phase followed by the motion phase. -/
def Player.move (p : Player) (maze : List String) : Player :=
  playerPhys (playerCommit p maze) maze

/-! ## Ghost (pacman.py lines 291-436) -/

inductive AiType where
  | aggressive
  | ambush
  | patrol
  | random
  deriving DecidableEq, Repr

structure Ghost where
  start_x : Int
  start_y : Int
  rect : Rect
  direction : Int × Int
  color : Color
  original_color : Color
  vulnerable : Bool
  vulnerability_timer : Nat
  respawn_timer : Nat
  eaten : Bool
  ai_type : AiType
  direction_change_timer : Nat
  deriving DecidableEq, Repr

/-- The list `[(MOVE_SPEED,0), (-MOVE_SPEED,0), (0,MOVE_SPEED), (0,-MOVE_SPEED)]`
from which every `random.choice` direction in the source is drawn. -/
def cardinalDirs : List (Int × Int) :=
  [(MOVE_SPEED, 0), (-MOVE_SPEED, 0), (0, MOVE_SPEED), (0, -MOVE_SPEED)]

/-- Model of `random.choice(cardinalDirs)`: the draw is the uniformly random
index `i` into the four-element list. -/
def chooseDir (i : Fin 4) : Int × Int := cardinalDirs.getD i.val (0, 0)

/-- `Ghost.__init__(x, y, color, ai_type)`; `r` models the `random.choice`
draw for the initial direction. -/
def Ghost.init (x y : Int) (color : Color) (ai_type : AiType) (r : Fin 4) : Ghost :=
  { start_x := x, start_y := y, rect := ⟨x, y, TILE_SIZE, TILE_SIZE⟩,
    direction := chooseDir r, color := color, original_color := color,
    vulnerable := false, vulnerability_timer := 0, respawn_timer := 0,
    eaten := false, ai_type := ai_type, direction_change_timer := 0 }

/-- `Ghost.reset`; `r` models the `random.choice` draw for the new direction. -/
def Ghost.reset (g : Ghost) (r : Fin 4) : Ghost :=
  { g with rect := { g.rect with x := g.start_x, y := g.start_y },
           direction := chooseDir r, vulnerable := false, vulnerability_timer := 0,
           respawn_timer := 0, eaten := false, color := g.original_color,
           direction_change_timer := 0 }

/-- `Ghost.make_vulnerable`. -/
def Ghost.make_vulnerable (g : Ghost) : Ghost :=
  { g with vulnerable := true, vulnerability_timer := POWER_PELLET_DURATION, color := BLUE }

/-- `Ghost.update_vulnerability`: while the timer is positive, decrement it and
set the color (flashing white near the end); once it is zero, clear the
vulnerable flag and restore the original color. -/
def Ghost.update_vulnerability (g : Ghost) : Ghost :=
  if g.vulnerability_timer > 0 then
    let t := g.vulnerability_timer - 1
    { g with vulnerability_timer := t,
             color := if t < 30 ∧ t % 10 < 5 then WHITE else BLUE }
  else
    { g with vulnerable := false, color := g.original_color }

/-- `Ghost.respawn`: while the respawn timer is positive, decrement it; when it
reaches zero, clear `eaten`, put the rect back on the spawn tile, clear
`vulnerable` and restore the original color (the vulnerability timer is not
touched). -/
def Ghost.respawn (g : Ghost) : Ghost :=
  if g.respawn_timer > 0 then
    let t := g.respawn_timer - 1
    if t = 0 then
      { g with respawn_timer := t, eaten := false,
               rect := { g.rect with x := g.start_x, y := g.start_y },
               vulnerable := false, color := g.original_color }
    else
      { g with respawn_timer := t }
  else g

/-- Chase rule shared by the aggressive and ambush AIs: move along the axis
with the larger absolute delta to the target, toward the target. -/
def chaseDir (target : Int × Int) (gx gy : Int) : Int × Int :=
  if (target.1 - gx).natAbs > (target.2 - gy).natAbs then
    (if target.1 > gx then MOVE_SPEED else -MOVE_SPEED, 0)
  else
    (0, if target.2 > gy then MOVE_SPEED else -MOVE_SPEED)

/-- The ambush AI's target: 4 tiles ahead of the player along the player's
last direction (`target_x = px + 4 * TILE_SIZE * dx`, same for y). -/
def ambushTarget (p d : Int × Int) : Int × Int :=
  (p.1 + 4 * TILE_SIZE * d.1, p.2 + 4 * TILE_SIZE * d.2)

/-- Flee rule of the vulnerable branch: move along the axis with the larger
absolute delta to the player, away from the player. -/
def fleeDir (p : Int × Int) (gx gy : Int) : Int × Int :=
  if (p.1 - gx).natAbs > (p.2 - gy).natAbs then
    (if p.1 > gx then -MOVE_SPEED else MOVE_SPEED, 0)
  else
    (0, if p.2 > gy then -MOVE_SPEED else MOVE_SPEED)

/-- Timer phase of `Ghost.move` on the non-eaten path: run
`update_vulnerability`, then increment `direction_change_timer`. -/
def Ghost.stepTimers (g : Ghost) : Ghost :=
  let g' := g.update_vulnerability
  { g' with direction_change_timer := g'.direction_change_timer + 1 }

/-- AI phase of `Ghost.move`: the vulnerable flee branch (10-tick cadence) or
the per-`ai_type` branch chain (`change_freq = 40`; aggressive every 20 ticks,
ambush every 30, patrol every 40, random every `40 / 2` ticks with the
`randint(0,10) > 7` gate). `rAI` models the `random.choice` draw and `rInt`
the `random.randint(0, 10)` draw. -/
def ghostDecide (g : Ghost) (player_pos player_direction : Option (Int × Int))
    (rAI : Fin 4) (rInt : Fin 11) : Ghost :=
  if g.vulnerable then
    if player_pos.isSome ∧ g.direction_change_timer % 10 = 0 then
      { g with direction := fleeDir (player_pos.getD (0, 0)) g.rect.x g.rect.y }
    else g
  else
    if g.ai_type = AiType.aggressive ∧ player_pos.isSome ∧
        g.direction_change_timer % 20 = 0 then
      { g with direction := chaseDir (player_pos.getD (0, 0)) g.rect.x g.rect.y }
    else if g.ai_type = AiType.ambush ∧ player_pos.isSome ∧ player_direction.isSome ∧
        g.direction_change_timer % 30 = 0 then
      { g with direction :=
          (chaseDir (ambushTarget (player_pos.getD (0, 0)) (player_direction.getD (0, 0)))
            g.rect.x g.rect.y) }
    else if g.ai_type = AiType.patrol ∧ g.direction_change_timer % 40 = 0 then
      { g with direction := chooseDir rAI }
    else if g.ai_type = AiType.random ∧ g.direction_change_timer % (40 / 2) = 0 then
      if rInt.val > 7 then { g with direction := chooseDir rAI } else g
    else g

/-- Motion phase of `Ghost.move`: move by the current direction; on a wall
overlap keep the rect and redraw the direction at random (`rBounce` models the
`random.choice` draw). -/
def ghostPhys (g : Ghost) (maze : List String) (rBounce : Fin 4) : Ghost :=
  if collides_with_walls (g.rect.move g.direction.1 g.direction.2) maze then
    { g with direction := chooseDir rBounce }
  else
    { g with rect := g.rect.move g.direction.1 g.direction.2 }

/-- `Ghost.move(maze, player_pos, player_direction)`: an eaten ghost only runs
`respawn`; otherwise the timer, AI and motion phases run in order. -/
def Ghost.move (g : Ghost) (maze : List String)
    (player_pos player_direction : Option (Int × Int))
    (rAI : Fin 4) (rInt : Fin 11) (rBounce : Fin 4) : Ghost :=
  if g.eaten then g.respawn
  else ghostPhys (ghostDecide g.stepTimers player_pos player_direction rAI rInt) maze rBounce

/-! ## Helper lemmas about the ghost phases -/

theorem chooseDir_mem (i : Fin 4) : chooseDir i ∈ cardinalDirs := by
  fin_cases i <;> decide

theorem chaseDir_mem (t : Int × Int) (gx gy : Int) : chaseDir t gx gy ∈ cardinalDirs := by
  unfold chaseDir
  split_ifs <;> decide

theorem fleeDir_mem (p : Int × Int) (gx gy : Int) : fleeDir p gx gy ∈ cardinalDirs := by
  unfold fleeDir
  split_ifs <;> decide

theorem playerCommit_rect (p : Player) (maze : List String) :
    (playerCommit p maze).rect = p.rect := by
  unfold playerCommit
  split_ifs <;> simp

theorem update_vulnerability_frame (g : Ghost) :
    (g.update_vulnerability).rect = g.rect ∧
    (g.update_vulnerability).direction = g.direction ∧
    (g.update_vulnerability).eaten = g.eaten ∧
    (g.update_vulnerability).direction_change_timer = g.direction_change_timer ∧
    (g.update_vulnerability).start_x = g.start_x ∧
    (g.update_vulnerability).start_y = g.start_y ∧
    (g.update_vulnerability).ai_type = g.ai_type := by
  unfold Ghost.update_vulnerability
  split <;> simp

theorem stepTimers_rect (g : Ghost) : g.stepTimers.rect = g.rect := by
  unfold Ghost.stepTimers
  simpa using (update_vulnerability_frame g).1

theorem stepTimers_direction (g : Ghost) : g.stepTimers.direction = g.direction := by
  unfold Ghost.stepTimers
  simpa using (update_vulnerability_frame g).2.1

theorem stepTimers_counter (g : Ghost) :
    g.stepTimers.direction_change_timer = g.direction_change_timer + 1 := by
  unfold Ghost.stepTimers
  simp [(update_vulnerability_frame g).2.2.2.1]

theorem stepTimers_not_vulnerable (g : Ghost) (h : g.vulnerable = false) :
    g.stepTimers.vulnerable = false := by
  unfold Ghost.stepTimers Ghost.update_vulnerability
  split <;> simp [h]

theorem stepTimers_ai_type (g : Ghost) : g.stepTimers.ai_type = g.ai_type := by
  unfold Ghost.stepTimers
  simpa using (update_vulnerability_frame g).2.2.2.2.2.2

theorem ghostDecide_frame (g : Ghost) (pp pd : Option (Int × Int))
    (rAI : Fin 4) (rInt : Fin 11) :
    (ghostDecide g pp pd rAI rInt).rect = g.rect ∧
    (ghostDecide g pp pd rAI rInt).color = g.color ∧
    (ghostDecide g pp pd rAI rInt).vulnerability_timer = g.vulnerability_timer ∧
    (ghostDecide g pp pd rAI rInt).eaten = g.eaten ∧
    (ghostDecide g pp pd rAI rInt).vulnerable = g.vulnerable := by
  unfold ghostDecide
  split_ifs <;> simp

theorem ghostPhys_frame (g : Ghost) (maze : List String) (rBounce : Fin 4) :
    (ghostPhys g maze rBounce).color = g.color ∧
    (ghostPhys g maze rBounce).vulnerability_timer = g.vulnerability_timer ∧
    (ghostPhys g maze rBounce).eaten = g.eaten ∧
    (ghostPhys g maze rBounce).vulnerable = g.vulnerable := by
  unfold ghostPhys
  split <;> simp

theorem respawn_direction (g : Ghost) : (g.respawn).direction = g.direction := by
  unfold Ghost.respawn
  split
  · dsimp only
    split <;> simp
  · simp

theorem ghostDecide_direction_mem (g : Ghost) (pp pd : Option (Int × Int))
    (rAI : Fin 4) (rInt : Fin 11) (h : g.direction ∈ cardinalDirs) :
    (ghostDecide g pp pd rAI rInt).direction ∈ cardinalDirs := by
  unfold ghostDecide
  split_ifs
  all_goals first
    | exact h
    | exact fleeDir_mem _ _ _
    | exact chaseDir_mem _ _ _
    | exact chooseDir_mem _

/-! ## Claim C9: ghost directions are always cardinal unit-speed vectors -/

/-- C9: every direction a ghost can ever carry is one of the four cardinal
vectors of magnitude `MOVE_SPEED` — never zero and never diagonal: the list
`cardinalDirs` contains exactly those vectors, and initialization, reset, and
every step of `Ghost.move` (AI re-evaluation, wall bounce, or keeping the old
direction) produce directions in that list. -/
theorem ghost_direction_always_cardinal :
    (∀ i : Fin 4, chooseDir i ∈ cardinalDirs) ∧
    (∀ d ∈ cardinalDirs,
      (d.1 = 0 ∧ (d.2 = MOVE_SPEED ∨ d.2 = -MOVE_SPEED)) ∨
      (d.2 = 0 ∧ (d.1 = MOVE_SPEED ∨ d.1 = -MOVE_SPEED))) ∧
    ((0, 0) ∉ cardinalDirs) ∧
    (∀ (x y : Int) (c : Color) (a : AiType) (r : Fin 4),
      (Ghost.init x y c a r).direction ∈ cardinalDirs) ∧
    (∀ (g : Ghost) (r : Fin 4), (g.reset r).direction ∈ cardinalDirs) ∧
    (∀ (g : Ghost) (maze : List String) (pp pd : Option (Int × Int))
        (rAI : Fin 4) (rInt : Fin 11) (rBounce : Fin 4),
      g.direction ∈ cardinalDirs →
      (g.move maze pp pd rAI rInt rBounce).direction ∈ cardinalDirs) := by
  refine ⟨chooseDir_mem, by decide, by decide, ?_, ?_, ?_⟩
  · intro x y c a r
    exact chooseDir_mem r
  · intro g r
    exact chooseDir_mem r
  · intro g maze pp pd rAI rInt rB h
    unfold Ghost.move
    split
    · rw [respawn_direction]
      exact h
    · unfold ghostPhys
      split
      · exact chooseDir_mem rB
      · show (ghostDecide g.stepTimers pp pd rAI rInt).direction ∈ cardinalDirs
        refine ghostDecide_direction_mem _ pp pd rAI rInt ?_
        rw [stepTimers_direction]
        exact h

/-- Concrete ghost used by witnesses: at tile (0, 0), moving right. -/
def gW : Ghost :=
  { start_x := 0, start_y := 0, rect := ⟨0, 0, 20, 20⟩, direction := (2, 0),
    color := CYAN, original_color := CYAN, vulnerable := false, vulnerability_timer := 0,
    respawn_timer := 0, eaten := false, ai_type := AiType.patrol,
    direction_change_timer := 0 }

/-- Single-wall maze used by witnesses: one wall tile at the origin. -/
def tinyMaze : List String := ["1"]

/-- C9 witness: the preservation statement applied to the concrete ghost `gW`. -/
theorem ghost_direction_always_cardinal_witness :
    (gW.move tinyMaze none none 0 0 1).direction ∈ cardinalDirs :=
  ghost_direction_always_cardinal.2.2.2.2.2 gW tinyMaze none none 0 0 1 (by decide)

/-! ## Claim C5: the player stops dead at walls, ghosts bounce -/

/-- C5: in the per-tick motion rule, if the player's rect moved by its current
(post-commit) velocity would overlap a wall, the rect stays put and the
velocity becomes zero; if a (non-eaten) ghost's rect moved by its current
(post-AI) direction would overlap a wall, the rect stays put and the direction
is redrawn uniformly from the four cardinal unit-speed vectors (the draw
`rBounce` indexes `cardinalDirs`, whose four entries are distinct). -/
theorem player_stops_ghost_bounces :
    (∀ (p : Player) (maze : List String),
      collides_with_walls ((playerCommit p maze).rect.move (playerCommit p maze).dx
        (playerCommit p maze).dy) maze = true →
      (p.move maze).rect = p.rect ∧ (p.move maze).dx = 0 ∧ (p.move maze).dy = 0) ∧
    (∀ (g : Ghost) (maze : List String) (pp pd : Option (Int × Int))
        (rAI : Fin 4) (rInt : Fin 11) (rBounce : Fin 4),
      g.eaten = false →
      collides_with_walls
        ((ghostDecide g.stepTimers pp pd rAI rInt).rect.move
          (ghostDecide g.stepTimers pp pd rAI rInt).direction.1
          (ghostDecide g.stepTimers pp pd rAI rInt).direction.2) maze = true →
      (g.move maze pp pd rAI rInt rBounce).rect = g.rect ∧
      (g.move maze pp pd rAI rInt rBounce).direction = chooseDir rBounce) ∧
    (∀ i : Fin 4, chooseDir i ∈ cardinalDirs) ∧
    Function.Injective chooseDir := by
  refine ⟨?_, ?_, chooseDir_mem, by decide⟩
  · intro p maze h
    unfold Player.move playerPhys
    rw [if_pos h]
    exact ⟨playerCommit_rect p maze, rfl, rfl⟩
  · intro g maze pp pd rAI rInt rB he h
    unfold Ghost.move
    rw [if_neg (by simp [he])]
    unfold ghostPhys
    rw [if_pos h]
    constructor
    · show (ghostDecide g.stepTimers pp pd rAI rInt).rect = g.rect
      rw [(ghostDecide_frame _ pp pd rAI rInt).1, stepTimers_rect]
    · rfl

/-- C5 witness: a player and a ghost at the origin, each about to move right
into the single wall tile of `tinyMaze`: the player stops dead, the ghost
keeps its rect and takes the redrawn direction. -/
theorem player_stops_ghost_bounces_witness :
    ((Player.init 0 0).move tinyMaze).rect = (Player.init 0 0).rect ∧
    ((Player.init 0 0).move tinyMaze).dx = 0 ∧ ((Player.init 0 0).move tinyMaze).dy = 0 ∧
    (gW.move tinyMaze none none 0 0 1).rect = gW.rect ∧
    (gW.move tinyMaze none none 0 0 1).direction = chooseDir 1 := by
  have hp := player_stops_ghost_bounces.1 (Player.init 0 0) tinyMaze (by decide)
  have hg := player_stops_ghost_bounces.2.1 gW tinyMaze none none 0 0 1 rfl (by decide)
  exact ⟨hp.1, hp.2.1, hp.2.2, hg.1, hg.2⟩

/-! ## Claim C6: random-AI re-evaluation cadence -/

/-- A Normal random-AI ghost one tick before its direction counter reaches 10,
in open corridor at tile (1, 1), used by the C6 counterexample. -/
def gRand : Ghost :=
  { start_x := 20, start_y := 20, rect := ⟨20, 20, 20, 20⟩, direction := (2, 0),
    color := ORANGE, original_color := ORANGE, vulnerable := false,
    vulnerability_timer := 0, respawn_timer := 0, eaten := false,
    ai_type := AiType.random, direction_change_timer := 9 }

/-- C6 counterexample: on the tick where `gRand`'s direction counter becomes
10 (a multiple of 10) and the `randint(0, 10)` draw is 8 (which exceeds 7),
the claim predicts a re-evaluation to the drawn direction `chooseDir 2 =
(0, 2)`, but the code keeps the old direction `(2, 0)`: the random AI only
re-evaluates at multiples of 20. -/
theorem random_ai_cadence_counterexample :
    gRand.direction_change_timer + 1 = 10 ∧ (10 : Nat) % 10 = 0 ∧
    ((8 : Fin 11) : Nat) > 7 ∧ chooseDir 2 = (0, 2) ∧
    (gRand.move MAZE (some (30, 30)) (some (1, 0)) 2 8 0).direction = (2, 0) ∧
    ((2, 0) : Int × Int) ≠ (0, 2) := by
  refine ⟨rfl, rfl, by decide, by decide, by decide, by decide⟩

/-- C6 (amended): a random-AI ghost, while Normal, re-evaluates its direction
at a 20-tick cadence (`change_freq // 2` with `change_freq = 40`): on each
tick whose direction counter is a multiple of 20 it picks the freshly drawn
uniformly random cardinal direction exactly when the `randint(0, 10)` draw
exceeds 7 (3 of the 11 equiprobable draws, probability 3/11), and otherwise
keeps its current direction; the counter itself advances by 1 each tick, and
on the non-eaten path `Ghost.move` is the timer, AI and motion phases in
order. -/
theorem random_ai_cadence_twenty :
    (∀ (g : Ghost) (maze : List String) (pp pd : Option (Int × Int))
        (rAI : Fin 4) (rInt : Fin 11) (rBounce : Fin 4),
      g.eaten = false →
      g.move maze pp pd rAI rInt rBounce =
        ghostPhys (ghostDecide g.stepTimers pp pd rAI rInt) maze rBounce) ∧
    (∀ g : Ghost, g.stepTimers.direction_change_timer = g.direction_change_timer + 1) ∧
    (∀ (g : Ghost) (pp pd : Option (Int × Int)) (rAI : Fin 4) (rInt : Fin 11),
      g.ai_type = AiType.random → g.vulnerable = false →
      (ghostDecide g pp pd rAI rInt).direction =
        (if g.direction_change_timer % 20 = 0 ∧ 7 < rInt.val then chooseDir rAI
         else g.direction)) ∧
    (Finset.univ.filter fun r : Fin 11 => 7 < r.val).card = 3 := by
  refine ⟨?_, stepTimers_counter, ?_, by decide⟩
  · intro g maze pp pd rAI rInt rB he
    unfold Ghost.move
    rw [if_neg (by simp [he])]
  · intro g pp pd rAI rInt ha hv
    unfold ghostDecide
    rw [if_neg (by simp [hv])]
    rw [ha]
    split_ifs <;> simp_all

/-- C6 witness: the amended cadence statement applied to a random-AI ghost
whose counter is 20, with the `randint` draw 8: the freshly drawn direction
is committed. -/
theorem random_ai_cadence_twenty_witness :
    (ghostDecide { gRand with direction_change_timer := 20 }
      (some (30, 30)) (some (1, 0)) 2 8).direction = chooseDir 2 := by
  have h := random_ai_cadence_twenty.2.2.1 { gRand with direction_change_timer := 20 }
    (some (30, 30)) (some (1, 0)) 2 8 rfl rfl
  rw [h]
  decide

/-! ## Claim C10: respawn leaves the vulnerability timer behind -/

theorem stepTimers_vulnerability_pos (g : Ghost) (h : g.vulnerability_timer > 0) :
    g.stepTimers.vulnerability_timer = g.vulnerability_timer - 1 ∧
    g.stepTimers.color =
      (if g.vulnerability_timer - 1 < 30 ∧ (g.vulnerability_timer - 1) % 10 < 5
       then WHITE else BLUE) := by
  unfold Ghost.stepTimers Ghost.update_vulnerability
  rw [if_pos h]
  simp

/-- C10: when the respawn timer reaches zero (stepping from 1 to 0), the
respawn step clears `eaten`, puts the rect back on the spawn tile, clears
`vulnerable` and restores the original color, but leaves
`vulnerability_timer` untouched; consequently, on the next `Ghost.move` of a
no-longer-eaten, non-vulnerable ghost whose leftover vulnerability timer is
still positive, the vulnerability-update step runs on that timer: it is
decremented and the color is set to BLUE (or flashing WHITE) even though the
ghost is not vulnerable. -/
theorem respawn_frame_and_leftover_vulnerability :
    (∀ g : Ghost, g.respawn_timer = 1 →
      (g.respawn).eaten = false ∧
      (g.respawn).rect.x = g.start_x ∧ (g.respawn).rect.y = g.start_y ∧
      (g.respawn).vulnerable = false ∧ (g.respawn).color = g.original_color ∧
      (g.respawn).vulnerability_timer = g.vulnerability_timer ∧
      (g.respawn).respawn_timer = 0) ∧
    (∀ (g : Ghost) (maze : List String) (pp pd : Option (Int × Int))
        (rAI : Fin 4) (rInt : Fin 11) (rBounce : Fin 4),
      g.eaten = false → g.vulnerable = false → g.vulnerability_timer > 0 →
      (g.move maze pp pd rAI rInt rBounce).vulnerability_timer =
        g.vulnerability_timer - 1 ∧
      (g.move maze pp pd rAI rInt rBounce).color =
        (if g.vulnerability_timer - 1 < 30 ∧ (g.vulnerability_timer - 1) % 10 < 5
         then WHITE else BLUE)) := by
  constructor
  · intro g h
    unfold Ghost.respawn
    rw [if_pos (by omega)]
    dsimp only
    rw [if_pos (by omega), h]
    simp
  · intro g maze pp pd rAI rInt rB he hv ht
    have h1 : g.move maze pp pd rAI rInt rB =
        ghostPhys (ghostDecide g.stepTimers pp pd rAI rInt) maze rB := by
      unfold Ghost.move
      rw [if_neg (by simp [he])]
    have h2 := ghostPhys_frame (ghostDecide g.stepTimers pp pd rAI rInt) maze rB
    have h3 := ghostDecide_frame g.stepTimers pp pd rAI rInt
    have h4 := stepTimers_vulnerability_pos g ht
    rw [h1]
    constructor
    · rw [h2.2.1, h3.2.2.1, h4.1]
    · rw [h2.1, h3.2.1, h4.2]

/-- A ghost in the Eaten state one tick before respawn, still carrying
vulnerability timer 40 (C10 witness fixture). -/
def gRespW : Ghost :=
  { gW with eaten := true, respawn_timer := 1, vulnerability_timer := 40 }

/-- A Normal, non-vulnerable ghost carrying leftover vulnerability timer 40
(C10 witness fixture). -/
def gLeftW : Ghost := { gW with vulnerability_timer := 40 }

/-- C10 witness: a ghost whose respawn timer is 1 keeps its leftover
vulnerability timer 40 through the respawn step, and a Normal ghost carrying
the leftover timer 40 has it decremented to 39 by the next move. -/
theorem respawn_frame_and_leftover_vulnerability_witness :
    (gRespW.respawn).vulnerability_timer = 40 ∧
    (gLeftW.move tinyMaze none none 0 0 1).vulnerability_timer = 39 := by
  have h1 := respawn_frame_and_leftover_vulnerability.1 gRespW rfl
  have h2 := respawn_frame_and_leftover_vulnerability.2 gLeftW tinyMaze none none 0 0 1
    rfl rfl (by decide)
  exact ⟨h1.2.2.2.2.2.1, h2.1⟩

/-! ## Claim C1: entity rectangles versus wall tiles at spawn -/

/-- The four ghosts exactly as constructed in `Game.__init__` (the `Fin 4`
arguments model the `random.choice` draws for the initial directions). -/
def initGhosts (r0 r1 r2 r3 : Fin 4) : List Ghost :=
  [Ghost.init (13 * TILE_SIZE) (11 * TILE_SIZE) RED AiType.aggressive r0,
   Ghost.init (14 * TILE_SIZE) (11 * TILE_SIZE) PINK AiType.ambush r1,
   Ghost.init (13 * TILE_SIZE) (12 * TILE_SIZE) CYAN AiType.patrol r2,
   Ghost.init (14 * TILE_SIZE) (12 * TILE_SIZE) ORANGE AiType.random r3]

/-- The first ghost of `Game.__init__` (Blinky), with initial draw 0. -/
def blinky : Ghost := Ghost.init (13 * TILE_SIZE) (11 * TILE_SIZE) RED AiType.aggressive 0

/-- C1 (code bug): all four ghost spawn tiles of `Game.__init__` are Wall
cells of `MAZE`, so each ghost's rectangle coincides with a wall tile
rectangle already at spawn — while the player's spawn tile (1, 1) is clear —
and `Ghost.move` leaves the first ghost's rectangle in place (every candidate
move collides, so only the direction is redrawn), so the overlap also
persists after `move` completes, contradicting the claimed invariant. -/
theorem ghost_spawns_inside_walls :
    ((initGhosts 0 0 0 0).all fun g => collides_with_walls g.rect MAZE) = true ∧
    collides_with_walls (Player.init (1 * TILE_SIZE) (1 * TILE_SIZE)).rect MAZE = false ∧
    (blinky.move MAZE (some (30, 30)) (some (1, 0)) 0 0 0).rect = blinky.rect ∧
    collides_with_walls
      (blinky.move MAZE (some (30, 30)) (some (1, 0)) 0 0 0).rect MAZE = true := by
  refine ⟨by decide, by decide, by decide, by decide⟩

/-! ## Dots, power pellets and game state (pacman.py lines 448-697) -/

structure Dot where
  rect : Rect
  eaten : Bool
  deriving DecidableEq, Repr

/-- `Dot.__init__(x, y)`. -/
def Dot.init (x y : Int) : Dot :=
  { rect := ⟨x + TILE_SIZE / 4, y + TILE_SIZE / 4, TILE_SIZE / 2, TILE_SIZE / 2⟩,
    eaten := false }

structure PowerPellet where
  rect : Rect
  eaten : Bool
  flash_timer : Nat
  deriving DecidableEq, Repr

/-- `PowerPellet.__init__(x, y)` (`TILE_SIZE // 1.5` truncates to 13 in the
pygame Rect). -/
def PowerPellet.init (x y : Int) : PowerPellet :=
  { rect := ⟨x + TILE_SIZE / 6, y + TILE_SIZE / 6, 13, 13⟩, eaten := false, flash_timer := 0 }

/-- `Game.create_dots`: one dot per `'0'` cell of the maze. -/
def create_dots (maze : List String) : List Dot :=
  maze.enum.foldl (fun acc ri_row =>
    acc ++ ri_row.2.toList.enum.filterMap (fun ci_cell =>
      if ci_cell.2 == '0' then
        some (Dot.init ((ci_cell.1 : Int) * TILE_SIZE) ((ri_row.1 : Int) * TILE_SIZE))
      else none)) []

/-- `Game.create_power_pellets`: one pellet per `'P'` cell of the maze. -/
def create_power_pellets (maze : List String) : List PowerPellet :=
  maze.enum.foldl (fun acc ri_row =>
    acc ++ ri_row.2.toList.enum.filterMap (fun ci_cell =>
      if ci_cell.2 == 'P' then
        some (PowerPellet.init ((ci_cell.1 : Int) * TILE_SIZE) ((ri_row.1 : Int) * TILE_SIZE))
      else none)) []

/-- The part of the `Game` state that the per-tick update passes touch. -/
structure GState where
  player : Player
  ghosts : List Ghost
  dots : List Dot
  power_pellets : List PowerPellet
  score : Int
  lives : Int
  game_over : Bool
  game_won : Bool
  power_mode : Bool
  ghost_combo : Int
  deriving DecidableEq, Repr

/-- `resetGhosts gs rs j` resets every ghost of `gs` to its spawn, drawing the
new random direction of the ghost at offset `k` from `rs (j + k)`. -/
def resetGhosts : List Ghost → (Nat → Fin 4) → Nat → List Ghost
  | [], _, _ => []
  | g :: gs, rs, j => g.reset (rs j) :: resetGhosts gs rs (j + 1)

/-- `Game.reset_positions`: reset the player and every ghost to spawn. -/
def reset_positions (st : GState) (rs : Nat → Fin 4) : GState :=
  { st with player := st.player.reset, ghosts := resetGhosts st.ghosts rs 0 }

/-- Loop body of `Game.update_dots`: an unconsumed dot overlapping the player
is marked eaten and scores `DOT_SCORE`. -/
def dotStep (pr : Rect) (acc : List Dot × Int) (d : Dot) : List Dot × Int :=
  if d.eaten = false ∧ pr.collide d.rect = true then
    (acc.1 ++ [{ d with eaten := true }], acc.2 + DOT_SCORE)
  else
    (acc.1 ++ [d], acc.2)

/-- `Game.update_dots`: run the eating pass over all dots, then set `game_won`
when every dot is eaten. -/
def update_dots (st : GState) : GState :=
  { st with
      dots := (st.dots.foldl (dotStep st.player.rect) ([], st.score)).1,
      score := (st.dots.foldl (dotStep st.player.rect) ([], st.score)).2,
      game_won :=
        (if ((st.dots.foldl (dotStep st.player.rect) ([], st.score)).1.all fun d => d.eaten)
         then true else st.game_won) }

/-- Loop body of `Game.update_power_pellets` for the pellet at index `i`: an
unconsumed pellet overlapping the player is marked eaten, scores
`POWER_PELLET_SCORE`, turns power mode on, resets the ghost combo to 1, and
makes every ghost vulnerable. -/
def pelletStep (st : GState) (i : Nat) : GState :=
  match st.power_pellets.get? i with
  | none => st
  | some pellet =>
    if pellet.eaten = false ∧ st.player.rect.collide pellet.rect = true then
      { st with power_pellets := st.power_pellets.set i { pellet with eaten := true },
                score := st.score + POWER_PELLET_SCORE,
                power_mode := true,
                ghost_combo := 1,
                ghosts := st.ghosts.map Ghost.make_vulnerable }
    else st

/-- `Game.update_power_pellets` as the pass of `pelletStep` over all pellets. -/
def update_power_pellets (st : GState) : GState :=
  (List.range st.power_pellets.length).foldl pelletStep st

/-- Loop body of `Game.check_collisions` for the ghost at index `i`: a
non-eaten ghost overlapping the player is either eaten (when vulnerable:
respawn timer 60, score `GHOST_SCORE * ghost_combo`, combo incremented) or
costs a life (then game over at `lives ≤ 0`, else positions reset). -/
def collideStep (st : GState) (rs : Nat → Fin 4) (i : Nat) : GState :=
  match st.ghosts.get? i with
  | none => st
  | some g =>
    if st.player.rect.collide g.rect = true ∧ g.eaten = false then
      if g.vulnerable then
        { st with ghosts := st.ghosts.set i { g with eaten := true, respawn_timer := 60 },
                  score := st.score + GHOST_SCORE * st.ghost_combo,
                  ghost_combo := st.ghost_combo + 1 }
      else
        if st.lives - 1 ≤ 0 then
          { st with lives := st.lives - 1, game_over := true }
        else
          reset_positions { st with lives := st.lives - 1 } rs
    else st

/-- `Game.check_collisions` as the pass of `collideStep` over all ghosts. -/
def check_collisions (st : GState) (rs : Nat → Fin 4) : GState :=
  (List.range st.ghosts.length).foldl (fun s i => collideStep s rs i) st

/-! ## Claim C2: eating the last dot sets the level-complete flag -/

/-- C2: if the dot-update pass leaves every dot eaten, then `game_won` (the
level-complete condition) is set by that same `update_dots` call — ghosts play
no part in `update_dots` at all. -/
theorem all_dots_eaten_sets_level_complete (st : GState)
    (h : ((update_dots st).dots.all fun d => d.eaten) = true) :
    (update_dots st).game_won = true := by
  unfold update_dots at h ⊢
  dsimp only at h ⊢
  rw [if_pos h]

/-- Constant reset-draw function used by witnesses. -/
def rsW : Nat → Fin 4 := fun _ => 0

/-- A Normal ghost placed exactly on the player tile (20, 20), used by the
C3 witness. -/
def gOverW : Ghost := { gW with rect := ⟨20, 20, 20, 20⟩ }

/-- The player at (20, 20), used by witness states. -/
def pW : Player := Player.init 20 20

/-- Witness game state: one Normal ghost overlapping the player, one life
left. -/
def stW : GState :=
  { player := pW, ghosts := [gOverW], dots := [], power_pellets := [],
    score := 5, lives := 1, game_over := false, game_won := false,
    power_mode := false, ghost_combo := 1 }

/-- An unconsumed dot under the player, used by the C2 witness. -/
def dotW : Dot := { rect := ⟨25, 25, 10, 10⟩, eaten := false }

/-- Witness game state for C2: a single unconsumed dot overlapping the
player. -/
def stDotsW : GState := { stW with dots := [dotW], lives := 3 }

/-- C2 witness: in `stDotsW` the pass eats the only dot, so `game_won` is set. -/
theorem all_dots_eaten_sets_level_complete_witness :
    (update_dots stDotsW).game_won = true :=
  all_dots_eaten_sets_level_complete stDotsW (by decide)

/-! ## Claim C3: effects of a Normal-ghost collision -/

/-- C3: when the collision-pass body processes a ghost that overlaps the
player and is neither vulnerable nor eaten, exactly one life is lost and the
score, dots, power pellets and `game_won` are untouched; if the decremented
lives are at most 0, only `game_over` is set and the player and ghosts stay
where they are, otherwise the player and all ghosts are reset to their spawn
positions (`Player.reset` and `Ghost.reset` put the rect back on the spawn
tile). -/
theorem normal_ghost_collision_effects (st : GState) (rs : Nat → Fin 4) (i : Nat) (g : Ghost)
    (hg : st.ghosts.get? i = some g)
    (hc : st.player.rect.collide g.rect = true)
    (hv : g.vulnerable = false) (he : g.eaten = false) :
    (collideStep st rs i).lives = st.lives - 1 ∧
    (collideStep st rs i).score = st.score ∧
    (collideStep st rs i).dots = st.dots ∧
    (collideStep st rs i).power_pellets = st.power_pellets ∧
    (collideStep st rs i).game_won = st.game_won ∧
    (if st.lives - 1 ≤ 0 then
      (collideStep st rs i).game_over = true ∧
      (collideStep st rs i).player = st.player ∧
      (collideStep st rs i).ghosts = st.ghosts
     else
      (collideStep st rs i).player = st.player.reset ∧
      (collideStep st rs i).ghosts = resetGhosts st.ghosts rs 0) ∧
    (∀ p : Player, p.reset.rect.x = p.start_x ∧ p.reset.rect.y = p.start_y) ∧
    (∀ (g' : Ghost) (r : Fin 4),
      (g'.reset r).rect.x = g'.start_x ∧ (g'.reset r).rect.y = g'.start_y) := by
  have hstep : collideStep st rs i =
      (if st.lives - 1 ≤ 0 then { st with lives := st.lives - 1, game_over := true }
       else reset_positions { st with lives := st.lives - 1 } rs) := by
    unfold collideStep
    rw [hg]
    dsimp only
    rw [if_pos ⟨hc, he⟩, if_neg (by simp [hv])]
  refine ⟨?_, ?_, ?_, ?_, ?_, ?_, ?_, ?_⟩
  · rw [hstep]
    split_ifs <;> simp [reset_positions]
  · rw [hstep]
    split_ifs <;> simp [reset_positions]
  · rw [hstep]
    split_ifs <;> simp [reset_positions]
  · rw [hstep]
    split_ifs <;> simp [reset_positions]
  · rw [hstep]
    split_ifs <;> simp [reset_positions]
  · rw [hstep]
    split_ifs <;> simp [reset_positions]
  · intro p
    unfold Player.reset
    simp
  · intro g' r
    unfold Ghost.reset
    simp

/-- C3 witness: with one life left, the overlapping Normal ghost costs the
last life and only sets `game_over`; positions, score and pellets are
untouched. -/
theorem normal_ghost_collision_effects_witness :
    (collideStep stW rsW 0).lives = 0 ∧
    (collideStep stW rsW 0).game_over = true ∧
    (collideStep stW rsW 0).player = stW.player ∧
    (collideStep stW rsW 0).ghosts = stW.ghosts ∧
    (collideStep stW rsW 0).score = 5 := by
  have h := normal_ghost_collision_effects stW rsW 0 gOverW rfl (by decide) rfl rfl
  have h6 := h.2.2.2.2.2.1
  rw [if_pos (show stW.lives - 1 ≤ 0 by decide)] at h6
  refine ⟨?_, h6.1, h6.2.1, h6.2.2, ?_⟩
  · rw [h.1]
    decide
  · rw [h.2.1]
    decide

/-! ## Claim C4: combo multiplier on pellet consumption and ghost eating -/

/-- C4: the pellet-pass body on an unconsumed pellet overlapping the player
sets the ghost combo multiplier to exactly 1 (marking the pellet eaten and
making all ghosts vulnerable), and the collision-pass body on a vulnerable,
non-eaten ghost overlapping the player marks that ghost eaten, adds exactly
`GHOST_SCORE * ghost_combo` (`GHOST_SCORE = 200`) to the score, and
increments the combo multiplier by exactly 1. -/
theorem power_pellet_combo_and_ghost_eat :
    (∀ (st : GState) (i : Nat) (pellet : PowerPellet),
      st.power_pellets.get? i = some pellet →
      pellet.eaten = false →
      st.player.rect.collide pellet.rect = true →
      (pelletStep st i).ghost_combo = 1 ∧
      (pelletStep st i).power_pellets = st.power_pellets.set i { pellet with eaten := true } ∧
      (pelletStep st i).ghosts = st.ghosts.map Ghost.make_vulnerable) ∧
    (∀ (st : GState) (rs : Nat → Fin 4) (i : Nat) (g : Ghost),
      st.ghosts.get? i = some g →
      st.player.rect.collide g.rect = true →
      g.vulnerable = true → g.eaten = false →
      (collideStep st rs i).ghosts =
        st.ghosts.set i { g with eaten := true, respawn_timer := 60 } ∧
      (collideStep st rs i).score = st.score + GHOST_SCORE * st.ghost_combo ∧
      (collideStep st rs i).ghost_combo = st.ghost_combo + 1) := by
  constructor
  · intro st i pellet hp he hc
    unfold pelletStep
    rw [hp]
    dsimp only
    rw [if_pos ⟨he, hc⟩]
    exact ⟨rfl, rfl, rfl⟩
  · intro st rs i g hg hc hv he
    unfold collideStep
    rw [hg]
    dsimp only
    rw [if_pos ⟨hc, he⟩, if_pos hv]
    exact ⟨rfl, rfl, rfl⟩

/-- An unconsumed power pellet under the player (C4 witness fixture). -/
def pelW : PowerPellet := { rect := ⟨23, 23, 13, 13⟩, eaten := false, flash_timer := 0 }

/-- A vulnerable ghost overlapping the player (C4 witness fixture). -/
def gVulW : Ghost := { gOverW with vulnerable := true }

/-- Witness game state for C4. -/
def stPelW : GState := { stW with power_pellets := [pelW], ghosts := [gVulW], lives := 3 }

/-- C4 witness: consuming the pellet of `stPelW` sets the combo to 1, and
eating its vulnerable ghost adds `GHOST_SCORE * combo` and bumps the combo. -/
theorem power_pellet_combo_and_ghost_eat_witness :
    (pelletStep stPelW 0).ghost_combo = 1 ∧
    (collideStep stPelW rsW 0).score = stPelW.score + GHOST_SCORE * stPelW.ghost_combo ∧
    (collideStep stPelW rsW 0).ghost_combo = stPelW.ghost_combo + 1 := by
  have h1 := power_pellet_combo_and_ghost_eat.1 stPelW 0 pelW rfl rfl (by decide)
  have h2 := power_pellet_combo_and_ghost_eat.2 stPelW rsW 0 gVulW rfl (by decide) rfl rfl
  exact ⟨h1.1, h2.2.1, h2.2.2⟩

/-- C8 witness: the amended fruit-update statement applied to a freshly
created (not eaten) fruit: the timer advances from 0 to 1 and the fruit stays
invisible. -/
theorem fruit_update_spec_witness :
    ((Fruit.init 280 320).update).spawn_timer = 1 ∧
    ((Fruit.init 280 320).update).visible = false := by
  have h := (fruit_update_spec (Fruit.init 280 320)).2 rfl
  constructor
  · rw [h.1]
    decide
  · have hv := h.2.1
    simp only [show (Fruit.init 280 320).spawn_timer = 0 from rfl] at hv
    simp at hv
    exact hv
